import Mathlib

/-!
Verification of the resmgt real-time movement and write-through engine.

The embedding follows the repository sources:
  * src/resmgt/sprites/base_sprites.py — BasicSprite.move (input → displacement →
    rectangle translation → on-screen clamp);
  * src/resmgt/sprites/icon_sprites.py — VillagerIconSprite (persistence-backed
    sprite: construction inserts the Villager record, move merges it);
  * src/resmgt/sprite.py — the legacy sibling BasicSprite.move with the
    Manhattan-norm displacement;
  * src/resmgt/game.py — Game (frame-loop body, running flag setter).

Pygame rectangles hold integer coordinates, so Rect is over ℤ and the float
arguments of Rect.move_ip are truncated toward zero.  Float scalars (speed,
the displacement vector) are idealized as exact arithmetic: speeds are
rationals, the displacement computed with math.sqrt lives in ℝ.  Database and
pygame calls are modelled by explicit call lists and error options.
-/

/-- Modelled from the spec: src/resmgt/settings.py is imported by every module
but is absent from the sources; §8 of the spec fixes the canvas at 800×600. -/
def SCREEN_WIDTH : ℤ := 800

/-- Modelled from the spec: src/resmgt/settings.py is absent from the sources;
§8 of the spec fixes the canvas at 800×600. -/
def SCREEN_HEIGHT : ℤ := 600

/-- The input-state snapshot: the four direction flags of pressed_keys that
BasicSprite.move reads (K_UP, K_DOWN, K_LEFT, K_RIGHT). -/
structure Keys where
  up : Bool
  down : Bool
  left : Bool
  right : Bool
deriving DecidableEq

/-- Raw axis accumulation of base_sprites.py lines 82–90 (identical in
sprite.py lines 80–88): xy starts at (0,0); up decrements y, down increments
y, left decrements x, right increments x.  The accumulated pair is exact
integer arithmetic in the source floats. -/
def rawVec (k : Keys) : ℤ × ℤ :=
  let y0 : ℤ := (if k.up then -1 else 0) + (if k.down then 1 else 0)
  let x0 : ℤ := (if k.left then -1 else 0) + (if k.right then 1 else 0)
  (x0, y0)

/-- Displacement of base_sprites.py lines 82–94: r = sqrt(sum(abs(x)**2 for x
in xy)); if r is nonzero, xy becomes [xy0 / r * speed, xy1 / r * speed],
otherwise xy is left as the raw (zero) vector.  Real-valued idealization of
the float computation. -/
noncomputable def displacement (k : Keys) (s : ℝ) : ℝ × ℝ :=
  let x : ℝ := ((rawVec k).1 : ℝ)
  let y : ℝ := ((rawVec k).2 : ℝ)
  let r : ℝ := Real.sqrt (|x| ^ 2 + |y| ^ 2)
  if r = 0 then (x, y) else (x / r * s, y / r * s)

/-- Displacement of the legacy sibling sprite.py lines 80–92: r is the
Manhattan norm sum(abs(x) for x in xy), and only the y component is divided
by r (xy = [xy[0] * speed, xy[1] / r * speed]).  All values are exact
rationals. -/
def legacyDisplacement (k : Keys) (s : ℚ) : ℚ × ℚ :=
  let x : ℚ := ((rawVec k).1 : ℚ)
  let y : ℚ := ((rawVec k).2 : ℚ)
  let r : ℚ := |x| + |y|
  if r = 0 then (x, y) else (x * s, y / r * s)

/-- A pygame rectangle: integer position of the top-left corner and integer
size.  left = x, right = x + w, top = y, bottom = y + h. -/
structure Rect where
  x : ℤ
  y : ℤ
  w : ℤ
  h : ℤ
deriving DecidableEq

def Rect.left (r : Rect) : ℤ := r.x

def Rect.right (r : Rect) : ℤ := r.x + r.w

def Rect.top (r : Rect) : ℤ := r.y

def Rect.bottom (r : Rect) : ℤ := r.y + r.h

/-- Rect.move_ip: translate the rectangle in place by an integer offset. -/
def Rect.moveIp (r : Rect) (d : ℤ × ℤ) : Rect :=
  { r with x := r.x + d.1, y := r.y + d.2 }

/-- Pygame truncates the float arguments of Rect.move_ip toward zero. -/
noncomputable def truncTowardZero (x : ℝ) : ℤ :=
  if 0 ≤ x then ⌊x⌋ else ⌈x⌉

/-- The on-screen clamp of base_sprites.py lines 98–106, in source order:
pin left to 0 if left < 0; then pin right to SCREEN_WIDTH if right >
SCREEN_WIDTH (pygame keeps the size, so this moves x to SCREEN_WIDTH - w);
then the same for top and bottom. -/
def keepOnScreen (r : Rect) : Rect :=
  let ra := if r.left < 0 then { r with x := 0 } else r
  let rb := if ra.right > SCREEN_WIDTH then { ra with x := SCREEN_WIDTH - ra.w } else ra
  let rc := if rb.top < 0 then { rb with y := 0 } else rb
  if rc.bottom > SCREEN_HEIGHT then { rc with y := SCREEN_HEIGHT - rc.h } else rc

/-- Closed form of the horizontal half of the clamp (left pinned first, then
right), used to reason about keepOnScreen axis by axis. -/
def clampX (x w : ℤ) : ℤ :=
  if (if x < 0 then 0 else x) + w > SCREEN_WIDTH then SCREEN_WIDTH - w
  else if x < 0 then 0 else x

/-- Closed form of the vertical half of the clamp (top pinned first, then
bottom). -/
def clampY (y h : ℤ) : ℤ :=
  if (if y < 0 then 0 else y) + h > SCREEN_HEIGHT then SCREEN_HEIGHT - h
  else if y < 0 then 0 else y

/-- The rectangle stays inside the canvas bounds. -/
def InBounds (r : Rect) : Prop :=
  0 ≤ r.left ∧ r.right ≤ SCREEN_WIDTH ∧ 0 ≤ r.top ∧ r.bottom ≤ SCREEN_HEIGHT

instance (r : Rect) : Decidable (InBounds r) := by
  unfold InBounds
  infer_instance

/-- BasicSprite.move of base_sprites.py lines 74–106: return unchanged when
the speed is falsy (zero); otherwise compute the displacement, translate the
rectangle by its truncation, and clamp to the screen. -/
noncomputable def BasicSprite.move (k : Keys) (speed : ℚ) (r : Rect) : Rect :=
  if speed = 0 then r
  else
    let d := displacement k (speed : ℝ)
    keepOnScreen (r.moveIp (truncTowardZero d.1, truncTowardZero d.2))

/-- The mirrored Villager record fields the sprite caches (db/models.py gives
x and y; the auxiliary attributes play no role in movement). -/
structure Villager where
  x : ℤ
  y : ℤ
deriving DecidableEq

/-- A call issued to the persistence gateway (db.add on insert, db.merge on
move), recorded with the position the Villager record carries. -/
inductive DbCall where
  | insert (x y : ℤ)
  | merge (x y : ℤ)
deriving DecidableEq

/-- An exception escaping one frame-loop iteration: dereferencing move on a
None player (AttributeError), or a persistence failure raised by db.merge. -/
inductive RunError where
  | attributeError
  | persistence
deriving DecidableEq

/-- The VillagerIconSprite state: construction-time location, speed, icon
size, the pygame rect, and the cached Villager record. -/
structure VillagerIconSprite where
  location : ℤ × ℤ
  speed : ℚ
  size : ℤ × ℤ
  rect : Rect
  model : Villager
deriving DecidableEq

/-- VillagerIconSprite.__init__ (icon_sprites.py lines 137–166) together with
IconSprite.__init__ lines 58–73: the rect is the image rect (0,0,w,h) moved
by the location, and the Villager model is built with x, y set from the
location. -/
def VillagerIconSprite.base (location : ℤ × ℤ) (size : ℤ × ℤ) (speed : ℚ) :
    VillagerIconSprite :=
  { location := location
    speed := speed
    size := size
    rect := { x := location.1, y := location.2, w := size.1, h := size.2 }
    model := { x := location.1, y := location.2 } }

/-- The gateway calls VillagerIconSprite.__init__ issues: when a db is
supplied and the insert flag is set, self.insert() adds the model (carrying
the construction-time location) exactly once. -/
def VillagerIconSprite.baseCalls (location : ℤ × ℤ) (dbSupplied ins : Bool) :
    List DbCall :=
  if dbSupplied && ins then [DbCall.insert location.1 location.2] else []

/-- VillagerIconSprite.move (icon_sprites.py lines 177–186): first
super().move mutates the rect, then model.x, model.y are assigned from
self.location (which move never updates), then db.merge(model) is issued;
a gateway failure surfaces after the in-memory mutations.  gwOk says whether
the merge succeeds. -/
noncomputable def VillagerIconSprite.move (gwOk : Bool) (v : VillagerIconSprite)
    (k : Keys) : VillagerIconSprite × List DbCall × Option RunError :=
  let r2 := BasicSprite.move k v.speed v.rect
  let m2 : Villager := { x := v.location.1, y := v.location.2 }
  ({ v with rect := r2, model := m2 },
   [DbCall.merge m2.x m2.y],
   if gwOk then none else some RunError.persistence)

/-- Iterated moves (the sprite advanced once per frame). -/
noncomputable def VillagerIconSprite.moveN (gwOk : Bool) (k : Keys) :
    ℕ → VillagerIconSprite → VillagerIconSprite
  | 0, v => v
  | n + 1, v => VillagerIconSprite.moveN gwOk k n (VillagerIconSprite.move gwOk v k).1

/-- Attribute state common to the simple sprite variants (BasicSprite,
CircleSprite, RectangleSprite, IconSprite): BasicSprite.move assigns only to
self.rect, so the variant move is the rect update with every other attribute
carried through. -/
structure SpriteAttrs where
  location : ℤ × ℤ
  speed : ℚ
  color : ℤ × ℤ × ℤ
  radius : ℚ
  size : ℤ × ℤ
  rect : Rect
deriving DecidableEq

/-- BasicSprite.move as it acts on a full sprite-attribute state: only the
rect field is written (base_sprites.py lines 74–106 assign to self.rect and
nothing else). -/
noncomputable def SpriteAttrs.move (st : SpriteAttrs) (k : Keys) : SpriteAttrs :=
  { st with rect := BasicSprite.move k st.speed st.rect }

/-- The Game state read by the run loop body: the running flag and the
optional player sprite. -/
structure Game where
  running : Bool
  player : Option VillagerIconSprite

/-- The running property setter (game.py lines 194–201): the flag changes
only when it is True and the assigned value is falsy; every other assignment
leaves it unchanged. -/
def Game.setRunning (cur value : Bool) : Bool :=
  if cur && !value then false else cur

/-- Game.__init__ followed by start (game.py lines 80–127, 220–231): the
player defaults to None; a supplied player is inserted into the db once; a
start flag of True sets _running.  Returns the state and the gateway calls
the construction issues. -/
def Game.build (player : Option VillagerIconSprite) (start : Bool) :
    Game × List DbCall :=
  ({ running := start, player := player },
   match player with
   | none => []
   | some p => [DbCall.insert p.model.x p.model.y])

/-- One iteration of the Game.run body (game.py lines 151–174), entered with
running = True: process a quit event and the escape key through the running
setter, then call self.player.move — an AttributeError if the player is None,
and a persistence error if the merge inside move fails.  Mutations made
before a raise are kept (Python object state survives the exception). -/
noncomputable def Game.runStep (g : Game) (quitEvent escPressed : Bool) (k : Keys)
    (gwOk : Bool) : Game × List DbCall × Option RunError :=
  let run1 := if quitEvent then Game.setRunning g.running false else g.running
  let run2 := if escPressed then Game.setRunning run1 false else run1
  match g.player with
  | none => ({ g with running := run2 }, [], some RunError.attributeError)
  | some p =>
    let s := VillagerIconSprite.move gwOk p k
    ({ g with running := run2, player := some s.1 }, s.2.1, s.2.2)

/-- Keys with no direction pressed. -/
def noKeys : Keys := ⟨false, false, false, false⟩

/-- Keys with only right pressed. -/
def onlyRight : Keys := ⟨false, false, false, true⟩

/-- Keys with up and right pressed (a diagonal). -/
def upRight : Keys := ⟨true, false, false, true⟩

/-- The default player of the spec scenarios: location (250,250), icon size
64×64, speed 10. -/
def v0 : VillagerIconSprite := VillagerIconSprite.base (250, 250) (64, 64) 10

/-- The displacement vector points in the net pressed direction: each
component has the sign of the corresponding raw axis contribution. -/
def MatchesPressed (k : Keys) (d : ℝ × ℝ) : Prop :=
  (0 < (rawVec k).1 → 0 < d.1) ∧ ((rawVec k).1 < 0 → d.1 < 0) ∧
  ((rawVec k).1 = 0 → d.1 = 0) ∧
  (0 < (rawVec k).2 → 0 < d.2) ∧ ((rawVec k).2 < 0 → d.2 < 0) ∧
  ((rawVec k).2 = 0 → d.2 = 0)

theorem displacement_of_rawVec_zero (k : Keys) (s : ℝ) (h : rawVec k = (0, 0)) :
    displacement k s = (0, 0) := by
  simp [displacement, h]

theorem displacement_onlyRight (s : ℝ) : displacement onlyRight s = (s, 0) := by
  have h : rawVec onlyRight = (1, 0) := by decide
  simp [displacement, h]

theorem truncTowardZero_zero : truncTowardZero 0 = 0 := by
  simp [truncTowardZero]

theorem truncTowardZero_ten : truncTowardZero 10 = 10 := by
  norm_num [truncTowardZero]

theorem basicMove_onlyRight_ten (r : Rect) :
    BasicSprite.move onlyRight 10 r = keepOnScreen (r.moveIp (10, 0)) := by
  unfold BasicSprite.move
  rw [if_neg (by norm_num : (10 : ℚ) ≠ 0)]
  rw [show ((10 : ℚ) : ℝ) = (10 : ℝ) by norm_cast, displacement_onlyRight]
  simp only [truncTowardZero_ten, truncTowardZero_zero]


theorem keepOnScreen_eq (x y w h : ℤ) :
    keepOnScreen ⟨x, y, w, h⟩ = ⟨clampX x w, clampY y h, w, h⟩ := by
  unfold keepOnScreen clampX clampY Rect.left Rect.right Rect.top Rect.bottom
  dsimp only
  split_ifs <;> rfl

theorem keepOnScreen_inBounds (r : Rect) (hw0 : 0 ≤ r.w) (hw : r.w ≤ SCREEN_WIDTH)
    (hh0 : 0 ≤ r.h) (hh : r.h ≤ SCREEN_HEIGHT) : InBounds (keepOnScreen r) := by
  obtain ⟨x, y, w, h⟩ := r
  rw [keepOnScreen_eq]
  unfold InBounds Rect.left Rect.right Rect.top Rect.bottom clampX clampY at *
  dsimp only at *
  split_ifs <;> omega

theorem clampX_clampX (x w : ℤ) : clampX (clampX x w) w = clampX x w := by
  unfold clampX
  split_ifs <;> omega

theorem clampY_clampY (y h : ℤ) : clampY (clampY y h) h = clampY y h := by
  unfold clampY
  split_ifs <;> omega

theorem clampX_of_bounded (x w : ℤ) (h1 : 0 ≤ x) (h2 : x + w ≤ SCREEN_WIDTH) :
    clampX x w = x := by
  unfold clampX
  split_ifs <;> omega

theorem clampY_of_bounded (y h : ℤ) (h1 : 0 ≤ y) (h2 : y + h ≤ SCREEN_HEIGHT) :
    clampY y h = y := by
  unfold clampY
  split_ifs <;> omega

theorem keepOnScreen_idem (r : Rect) :
    keepOnScreen (keepOnScreen r) = keepOnScreen r := by
  obtain ⟨x, y, w, h⟩ := r
  rw [keepOnScreen_eq x y w h, keepOnScreen_eq, clampX_clampX, clampY_clampY]

theorem keepOnScreen_of_inBounds (r : Rect) (hb : InBounds r) : keepOnScreen r = r := by
  obtain ⟨x, y, w, h⟩ := r
  unfold InBounds Rect.left Rect.right Rect.top Rect.bottom at hb
  dsimp only at hb
  obtain ⟨h1, h2, h3, h4⟩ := hb
  rw [keepOnScreen_eq, clampX_of_bounded x w h1 h2, clampY_of_bounded y h h3 h4]

/-- C4 (amended): for every input snapshot, every nonzero speed, and every
starting rectangle whose width and height are nonnegative and no larger than
the screen, the rectangle lies fully inside the canvas bounds after
BasicSprite.move. -/
theorem claim_C4_move_keeps_rect_on_screen (k : Keys) (s : ℚ) (r : Rect)
    (hs : s ≠ 0) (hw0 : 0 ≤ r.w) (hw : r.w ≤ SCREEN_WIDTH)
    (hh0 : 0 ≤ r.h) (hh : r.h ≤ SCREEN_HEIGHT) :
    InBounds (BasicSprite.move k s r) := by
  unfold BasicSprite.move
  rw [if_neg hs]
  exact keepOnScreen_inBounds _ hw0 hw hh0 hh

/-- C4 counterexample: the claim quantifies over every starting rectangle,
but a rectangle wider than the screen (width 900 on the 800-wide canvas)
still protrudes after move — pinning right to SCREEN_WIDTH drags left to
-100 < 0. -/
theorem claim_C4_counterexample :
    ¬ InBounds (BasicSprite.move noKeys 10 ⟨0, 0, 900, 50⟩) := by
  have h1 : displacement noKeys ((10 : ℚ) : ℝ) = (0, 0) :=
    displacement_of_rawVec_zero _ _ (by decide)
  unfold BasicSprite.move
  rw [if_neg (by norm_num : (10 : ℚ) ≠ 0), h1]
  simp only [truncTowardZero_zero]
  decide

/-- C4 witness: the amended theorem at speed 10, right pressed, rectangle
(250,250,64,64). -/
theorem claim_C4_witness :
    (10 : ℚ) ≠ 0 ∧ (64 : ℤ) ≤ SCREEN_WIDTH ∧ (64 : ℤ) ≤ SCREEN_HEIGHT ∧
    InBounds (BasicSprite.move onlyRight 10 ⟨250, 250, 64, 64⟩) :=
  ⟨by norm_num, by decide, by decide,
    claim_C4_move_keeps_rect_on_screen onlyRight 10 ⟨250, 250, 64, 64⟩
      (by norm_num) (by decide) (by decide) (by decide) (by decide)⟩

/-- C5: the bounded-canvas clamp is idempotent on every rectangle, and
clamping an already-in-bounds rectangle leaves it unchanged. -/
theorem claim_C5_clamp_idempotent (r : Rect) :
    keepOnScreen (keepOnScreen r) = keepOnScreen r ∧
    (InBounds r → keepOnScreen r = r) :=
  ⟨keepOnScreen_idem r, keepOnScreen_of_inBounds r⟩

/-- C7: with speed zero, move never changes the position: BasicSprite.move
returns the rectangle unchanged, and a zero-speed VillagerIconSprite keeps
its rect through move even though the merge is still issued. -/
theorem claim_C7_zero_speed_noop (k : Keys) (r : Rect) (v : VillagerIconSprite)
    (gw : Bool) (hv : v.speed = 0) :
    BasicSprite.move k 0 r = r ∧
    (VillagerIconSprite.move gw v k).1.rect = v.rect := by
  constructor
  · unfold BasicSprite.move
    simp
  · unfold VillagerIconSprite.move BasicSprite.move
    simp [hv]

/-- C7 witness: a zero-speed villager at (250,250) with right pressed. -/
theorem claim_C7_witness :
    (VillagerIconSprite.base (250, 250) (64, 64) 0).speed = 0 ∧
    (BasicSprite.move onlyRight 0 ⟨250, 250, 64, 64⟩ = ⟨250, 250, 64, 64⟩ ∧
     (VillagerIconSprite.move true (VillagerIconSprite.base (250, 250) (64, 64) 0)
        onlyRight).1.rect = (VillagerIconSprite.base (250, 250) (64, 64) 0).rect) :=
  ⟨rfl, claim_C7_zero_speed_noop onlyRight ⟨250, 250, 64, 64⟩
      (VillagerIconSprite.base (250, 250) (64, 64) 0) true rfl⟩

/-- C8: through the setter the running flag can only change from True to
False: from False every assignment (stop while stopped, or assigning True
while stopped) leaves it False, assigning True never changes it, and in
general the setter computes cur && value — the only non-identity transition
is True → False. -/
theorem claim_C8_running_true_to_false_only :
    (∀ v, Game.setRunning false v = false) ∧
    (∀ c, Game.setRunning c true = c) ∧
    (∀ c v, Game.setRunning c v = (c && v)) := by
  refine ⟨?_, ?_, ?_⟩ <;> decide

theorem v0_move_rect :
    (VillagerIconSprite.move true v0 onlyRight).1.rect = ⟨260, 250, 64, 64⟩ := by
  have h : BasicSprite.move onlyRight 10 (⟨250, 250, 64, 64⟩ : Rect) = ⟨260, 250, 64, 64⟩ := by
    rw [basicMove_onlyRight_ten]
    decide
  exact h

/-- C9: move mutates only the rect: on every simple sprite variant the
location, speed, color, radius and size attributes are unchanged by move; on
the villager variant location, speed and size are unchanged; and iterating
move any number of times from construction leaves location at the
construction-time coordinates. -/
theorem claim_C9_only_rect_mutated (st : SpriteAttrs) (v : VillagerIconSprite)
    (gw : Bool) (k : Keys) (n : ℕ) (loc sz : ℤ × ℤ) (s : ℚ) :
    (st.move k).location = st.location ∧ (st.move k).speed = st.speed ∧
    (st.move k).color = st.color ∧ (st.move k).radius = st.radius ∧
    (st.move k).size = st.size ∧
    (VillagerIconSprite.move gw v k).1.location = v.location ∧
    (VillagerIconSprite.move gw v k).1.speed = v.speed ∧
    (VillagerIconSprite.move gw v k).1.size = v.size ∧
    (VillagerIconSprite.moveN gw k n (VillagerIconSprite.base loc sz s)).location = loc := by
  refine ⟨rfl, rfl, rfl, rfl, rfl, rfl, rfl, rfl, ?_⟩
  have hstep : ∀ m (u : VillagerIconSprite),
      (VillagerIconSprite.moveN gw k m u).location = u.location := by
    intro m
    induction m with
    | zero => intro u; rfl
    | succ m ih => intro u; exact ih _
  exact hstep n _

/-- C10: a Game built without a player sprite has player = None and its first
run-loop iteration raises the AttributeError of dereferencing move on None;
with a player supplied that failure never occurs. -/
theorem claim_C10_run_requires_player (e esc : Bool) (k : Keys) (gw : Bool)
    (p : VillagerIconSprite) :
    (Game.build none true).1.player = none ∧
    (Game.runStep (Game.build none true).1 e esc k gw).2.2 =
      some RunError.attributeError ∧
    (Game.runStep { running := true, player := some p } e esc k gw).2.2 ≠
      some RunError.attributeError := by
  refine ⟨rfl, rfl, ?_⟩
  unfold Game.runStep VillagerIconSprite.move
  cases gw <;> simp

/-- C3 (amended): when the gateway merge fails during a villager move, the
in-memory rect already holds the newly moved-and-clamped position, but the
PersistenceError propagates out of move and out of the frame-loop body. -/
theorem claim_C3_merge_failure_escapes (v : VillagerIconSprite) (k : Keys)
    (e esc : Bool) :
    (VillagerIconSprite.move false v k).1.rect = BasicSprite.move k v.speed v.rect ∧
    (VillagerIconSprite.move false v k).2.2 = some RunError.persistence ∧
    (Game.runStep { running := true, player := some v } e esc k false).2.2 =
      some RunError.persistence :=
  ⟨rfl, rfl, rfl⟩

/-- C3 counterexample: with the concrete player v0, right pressed and the
merge failing, the persistence error escapes the frame-loop iteration,
refuting the no-exception-escapes part of the claim (Game.run has no
try/except around the loop body). -/
theorem claim_C3_counterexample :
    (Game.runStep { running := true, player := some v0 } false false onlyRight
        false).2.2 = some RunError.persistence :=
  rfl

/-- C1 (code bug): after a successful move from (250,250) with speed 10 and
right pressed, the rect advances to x = 260 but the cached model still holds
the construction-time location (250,250): the code copies self.location,
which move never updates, instead of the rect position. -/
theorem claim_C1_model_position_stale :
    (VillagerIconSprite.move true v0 onlyRight).1.rect = ⟨260, 250, 64, 64⟩ ∧
    (VillagerIconSprite.move true v0 onlyRight).1.model = ⟨250, 250⟩ ∧
    (250 : ℤ) ≠ 260 :=
  ⟨v0_move_rect, rfl, by decide⟩

/-- C6 (code bug): construction with a gateway and auto-insert issues exactly
one insert carrying the initial location, and one advance issues exactly one
merge — but the merge payload is the construction-time location (250,250),
not the advanced position x = 260. -/
theorem claim_C6_insert_once_merge_stale :
    VillagerIconSprite.baseCalls (250, 250) true true = [DbCall.insert 250 250] ∧
    (VillagerIconSprite.move true v0 onlyRight).2.1 = [DbCall.merge 250 250] ∧
    (VillagerIconSprite.move true v0 onlyRight).1.rect = ⟨260, 250, 64, 64⟩ ∧
    DbCall.merge 250 250 ≠ DbCall.merge 260 250 :=
  ⟨rfl, rfl, v0_move_rect, by decide⟩

theorem rawVec_sq_pos (k : Keys) (hk : rawVec k ≠ (0, 0)) :
    (0 : ℝ) < ((rawVec k).1 : ℝ) ^ 2 + ((rawVec k).2 : ℝ) ^ 2 := by
  have hab : ¬((rawVec k).1 = 0 ∧ (rawVec k).2 = 0) := by
    intro h
    exact hk (Prod.ext_iff.mpr ⟨h.1, h.2⟩)
  rcases not_and_or.mp hab with h | h
  · have h1 : ((rawVec k).1 : ℝ) ≠ 0 := Int.cast_ne_zero.mpr h
    have h2 := sq_nonneg ((rawVec k).2 : ℝ)
    have h3 : (0 : ℝ) < ((rawVec k).1 : ℝ) ^ 2 := by positivity
    linarith
  · have h1 : ((rawVec k).2 : ℝ) ≠ 0 := Int.cast_ne_zero.mpr h
    have h2 := sq_nonneg ((rawVec k).1 : ℝ)
    have h3 : (0 : ℝ) < ((rawVec k).2 : ℝ) ^ 2 := by positivity
    linarith

theorem displacement_eq_of_ne (k : Keys) (s : ℝ) (hk : rawVec k ≠ (0, 0)) :
    displacement k s =
      (((rawVec k).1 : ℝ) /
          Real.sqrt (((rawVec k).1 : ℝ) ^ 2 + ((rawVec k).2 : ℝ) ^ 2) * s,
       ((rawVec k).2 : ℝ) /
          Real.sqrt (((rawVec k).1 : ℝ) ^ 2 + ((rawVec k).2 : ℝ) ^ 2) * s) := by
  have hsq : Real.sqrt (|((rawVec k).1 : ℝ)| ^ 2 + |((rawVec k).2 : ℝ)| ^ 2) =
      Real.sqrt (((rawVec k).1 : ℝ) ^ 2 + ((rawVec k).2 : ℝ) ^ 2) := by
    rw [sq_abs, sq_abs]
  have hrpos : 0 < Real.sqrt (((rawVec k).1 : ℝ) ^ 2 + ((rawVec k).2 : ℝ) ^ 2) :=
    Real.sqrt_pos.mpr (rawVec_sq_pos k hk)
  have hrne : Real.sqrt (|((rawVec k).1 : ℝ)| ^ 2 + |((rawVec k).2 : ℝ)| ^ 2) ≠ 0 := by
    rw [hsq]
    exact ne_of_gt hrpos
  simp only [displacement]
  rw [if_neg hrne, hsq]

/-- C2: for every input snapshot with a nonzero net direction and every
positive speed, the displacement of BasicSprite.move has Euclidean magnitude
exactly the speed, and points in the net pressed direction — in particular on
a diagonal the magnitude is still the speed (Euclidean normalization). -/
theorem claim_C2_displacement_euclidean (k : Keys) (s : ℝ)
    (hk : rawVec k ≠ (0, 0)) (hs : 0 < s) :
    Real.sqrt ((displacement k s).1 ^ 2 + (displacement k s).2 ^ 2) = s ∧
    MatchesPressed k (displacement k s) := by
  have hpos := rawVec_sq_pos k hk
  have hrpos : 0 < Real.sqrt (((rawVec k).1 : ℝ) ^ 2 + ((rawVec k).2 : ℝ) ^ 2) :=
    Real.sqrt_pos.mpr hpos
  rw [displacement_eq_of_ne k s hk]
  constructor
  · dsimp only
    have hmag : (((rawVec k).1 : ℝ) /
          Real.sqrt (((rawVec k).1 : ℝ) ^ 2 + ((rawVec k).2 : ℝ) ^ 2) * s) ^ 2 +
        (((rawVec k).2 : ℝ) /
          Real.sqrt (((rawVec k).1 : ℝ) ^ 2 + ((rawVec k).2 : ℝ) ^ 2) * s) ^ 2 = s ^ 2 := by
      have hr2 : Real.sqrt (((rawVec k).1 : ℝ) ^ 2 + ((rawVec k).2 : ℝ) ^ 2) ^ 2 =
          ((rawVec k).1 : ℝ) ^ 2 + ((rawVec k).2 : ℝ) ^ 2 :=
        Real.sq_sqrt hpos.le
      calc (((rawVec k).1 : ℝ) /
              Real.sqrt (((rawVec k).1 : ℝ) ^ 2 + ((rawVec k).2 : ℝ) ^ 2) * s) ^ 2 +
            (((rawVec k).2 : ℝ) /
              Real.sqrt (((rawVec k).1 : ℝ) ^ 2 + ((rawVec k).2 : ℝ) ^ 2) * s) ^ 2
          = (((rawVec k).1 : ℝ) ^ 2 + ((rawVec k).2 : ℝ) ^ 2) /
              Real.sqrt (((rawVec k).1 : ℝ) ^ 2 + ((rawVec k).2 : ℝ) ^ 2) ^ 2 * s ^ 2 := by
            ring
        _ = s ^ 2 := by
            rw [hr2, div_self (ne_of_gt hpos), one_mul]
    rw [hmag]
    exact Real.sqrt_sq hs.le
  · unfold MatchesPressed
    dsimp only
    refine ⟨?_, ?_, ?_, ?_, ?_, ?_⟩
    · intro h
      exact mul_pos (div_pos (by exact_mod_cast h) hrpos) hs
    · intro h
      exact mul_neg_of_neg_of_pos
        (div_neg_of_neg_of_pos (by exact_mod_cast h) hrpos) hs
    · intro h
      rw [h]
      simp
    · intro h
      exact mul_pos (div_pos (by exact_mod_cast h) hrpos) hs
    · intro h
      exact mul_neg_of_neg_of_pos
        (div_neg_of_neg_of_pos (by exact_mod_cast h) hrpos) hs
    · intro h
      rw [h]
      simp

/-- C2 witness: the diagonal up-right at speed 10. -/
theorem claim_C2_witness :
    rawVec upRight ≠ (0, 0) ∧ (0 : ℝ) < 10 ∧
    (Real.sqrt ((displacement upRight 10).1 ^ 2 + (displacement upRight 10).2 ^ 2) = 10 ∧
     MatchesPressed upRight (displacement upRight 10)) :=
  ⟨by decide, by norm_num,
    claim_C2_displacement_euclidean upRight 10 (by decide) (by norm_num)⟩

/-- The legacy resolver of sprite.py is not Euclidean: on the up-right
diagonal at speed 10 it yields (10, -5), whose squared magnitude is 125, not
the 100 Euclidean normalization would give. -/
theorem legacyDisplacement_not_euclidean :
    legacyDisplacement upRight 10 = (10, -5) ∧
    (legacyDisplacement upRight 10).1 ^ 2 + (legacyDisplacement upRight 10).2 ^ 2 ≠ 100 := by
  have h : rawVec upRight = (1, -1) := by decide
  have h2 : legacyDisplacement upRight 10 = (10, -5) := by
    simp only [legacyDisplacement, h]
    norm_num [Prod.ext_iff]
  refine ⟨h2, ?_⟩
  rw [h2]
  norm_num
